import Mathlib

/-!
Verification of the Ares job-queue / scrape-pipeline core against its
natural-language specification.  Each Rust module relevant to the claims is
shallowly embedded as executable Lean definitions, translated directly from
the source files:

* `crates/ares-core/src/error.rs`            — error taxonomy
* `crates/ares-core/src/job.rs`              — job record, status, retry policy
* `crates/ares-db/src/job_repository.rs`     — SQL job-queue operations (per-row)
* `crates/ares-core/src/circuit_breaker.rs`  — circuit breaker state machine
* `crates/ares-core/src/scrape.rs`           — scrape pipeline
* `crates/ares-core/src/worker.rs`           — worker retry decision

Modelling conventions: `Duration` / `Instant` / UTC timestamps become exact
rationals or integers (the `f32` backoff multiplier is modelled as an exact
rational; the default 2.0 is exactly representable); database rows are Lean
structures and each SQL `UPDATE ... WHERE id = $1` becomes a pure function on
the addressed row; injected capabilities (fetcher, cleaner, extractor, store)
become function-valued parameters, mirroring the Rust trait objects.
-/

namespace Ares

/-- Substring test on character lists: `starts_with n h` holds when `n` is a
prefix of `h`.  Together with `has_sub` this models Rust's `str::contains`. -/
def starts_with : List Char → List Char → Bool
  | [], _ => true
  | _ :: _, [] => false
  | a :: as, b :: bs => a == b && starts_with as bs

/-- Substring containment: `has_sub n h` holds when `n` occurs contiguously in
`h`.  Models Rust's `str::contains(needle)`. -/
def has_sub (n : List Char) : List Char → Bool
  | [] => starts_with n []
  | b :: bs => starts_with n (b :: bs) || has_sub n bs

/-- String-level wrapper for `has_sub`, argument order as in Rust's
`haystack.contains(needle)`. -/
def str_contains (haystack needle : String) : Bool :=
  has_sub needle.toList haystack.toList

/-- Error taxonomy from `error.rs` (`enum AppError`).  The `serde_json::Error`
payload of `SerializationError` is modelled by its message string. -/
inductive AppError where
  | HttpError (msg : String)
  | LlmError (message : String) (status_code : Nat) (retryable : Bool)
  | CleanerError (msg : String)
  | SchemaValidationError (msg : String)
  | SerializationError (msg : String)
  | Timeout (secs : Nat)
  | RateLimitExceeded
  | NetworkError (msg : String)
  | DatabaseError (msg : String)
  | Generic (msg : String)
deriving DecidableEq, Repr

/-- Display strings from the `thiserror` attributes on `AppError`. -/
def AppError.display : AppError → String
  | .HttpError m => "HTTP error: " ++ m
  | .LlmError m c _ => "LLM error (HTTP " ++ toString c ++ "): " ++ m
  | .CleanerError m => "Cleaner error: " ++ m
  | .SchemaValidationError m => "Schema validation error: " ++ m
  | .SerializationError m => "Serialization error: " ++ m
  | .Timeout s => "Request timed out after " ++ toString s ++ " seconds"
  | .RateLimitExceeded => "Rate limit exceeded"
  | .NetworkError m => "Network error: " ++ m
  | .DatabaseError m => "Database error: " ++ m
  | .Generic m => m

/-- `AppError::is_retryable` from `error.rs` lines 53-62. -/
def AppError.is_retryable : AppError → Bool
  | .NetworkError _ | .Timeout _ | .RateLimitExceeded => true
  | .LlmError _ _ retryable => retryable
  | .HttpError msg =>
      str_contains msg "timeout" || str_contains msg "connect"
        || str_contains msg "reset"
  | _ => false

/-- `AppError::should_trip_circuit` from `error.rs` lines 65-81.  Note the
`HttpError` arm tests for the substrings timeout / connect / connection, not
timeout / connect / reset. -/
def AppError.should_trip_circuit : AppError → Bool
  | .NetworkError _ | .Timeout _ | .RateLimitExceeded => true
  | .LlmError _ status_code retryable =>
      status_code == 429 || status_code ≥ 500 || retryable
  | .HttpError msg =>
      str_contains msg "timeout" || str_contains msg "connect"
        || str_contains msg "connection"
  | _ => false

/-- Job status from `job.rs` (`enum JobStatus`). -/
inductive JobStatus where
  | Pending
  | Running
  | Completed
  | Failed
  | Cancelled
deriving DecidableEq, Repr

/-- `JobStatus::is_terminal` from `job.rs` lines 31-37. -/
def JobStatus.is_terminal : JobStatus → Bool
  | .Completed | .Failed | .Cancelled => true
  | _ => false

/-- Retry configuration from `job.rs` (`struct RetryConfig`).  `TimeDelta`
values are modelled as integer seconds, so `max_delay` defaults to 3600. -/
structure RetryConfig where
  max_retries : Nat
  max_delay : Int
deriving Repr

/-- Default `RetryConfig` (`max_retries = 3`, `max_delay = 60 minutes`). -/
def RetryConfig.standard : RetryConfig := { max_retries := 3, max_delay := 3600 }

/-- `RetryConfig::delay_for_attempt` from `job.rs` lines 85-93, in seconds:
1 min, 5 min, 30 min, then 60 min, all capped by `max_delay`. -/
def RetryConfig.delay_for_attempt (c : RetryConfig) (attempt : Nat) : Int :=
  let delay : Int :=
    match attempt with
    | 0 | 1 => 60
    | 2 => 300
    | 3 => 1800
    | _ => 3600
  min delay c.max_delay

/-- A row of the `scrape_jobs` table (`struct ScrapeJobRow` in
`job_repository.rs` / `struct ScrapeJob` in `job.rs`).  UUIDs are `Nat`,
UTC timestamps are `Int` (seconds), the JSON schema document is kept as its
serialized string. -/
structure JobRow where
  id : Nat
  url : String
  schema_name : String
  schema : String
  model : String
  base_url : String
  status : JobStatus
  created_at : Int
  updated_at : Int
  started_at : Option Int
  completed_at : Option Int
  retry_count : Nat
  max_retries : Nat
  next_retry_at : Option Int
  error_message : Option String
  extraction_id : Option Nat
  worker_id : Option String
deriving DecidableEq, Repr

/-- `ScrapeJob::can_retry` from `job.rs` lines 119-121. -/
def JobRow.can_retry (j : JobRow) : Bool :=
  j.retry_count < j.max_retries

/-- `ScrapeJob::calculate_next_retry` from `job.rs` lines 123-126:
`Utc::now() + delay_for_attempt(retry_count + 1)`. -/
def JobRow.calculate_next_retry (j : JobRow) (c : RetryConfig) (now : Int) : Int :=
  now + c.delay_for_attempt (j.retry_count + 1)

/-- The row filter of `claim_job`'s inner SELECT (`job_repository.rs` lines
96-101): `status = 'pending' AND (next_retry_at IS NULL OR next_retry_at <=
NOW())`. -/
def claim_filter (j : JobRow) (now : Int) : Bool :=
  j.status == .Pending &&
    (match j.next_retry_at with
     | none => true
     | some t => t ≤ now)

/-- The SET clause of `claim_job`'s UPDATE (`job_repository.rs` line 94):
`status = 'running', worker_id = $1, started_at = NOW(), updated_at = NOW()`. -/
def claim_update (j : JobRow) (wid : String) (now : Int) : JobRow :=
  { j with
    status := .Running,
    worker_id := some wid,
    started_at := some now,
    updated_at := now }

/-- Effect of one `claim_job` call on a single row: the row is updated exactly
when the SELECT filter matches it (rows not selected are untouched). -/
def claim_job_row (j : JobRow) (wid : String) (now : Int) : JobRow :=
  if claim_filter j now then claim_update j wid now else j

/-- `complete_job` from `job_repository.rs` lines 114-134, as the effect on the
addressed row. -/
def complete_job_row (j : JobRow) (extraction_id : Option Nat) (now : Int) : JobRow :=
  { j with
    status := .Completed,
    completed_at := some now,
    updated_at := now,
    extraction_id := extraction_id,
    error_message := none,
    worker_id := none }

/-- `fail_job` from `job_repository.rs` lines 136-166, as the effect on the
addressed row.  The SQL CASE expressions on `$3::timestamptz IS NOT NULL`
become matches on the `next_retry_at` argument; the UPDATE carries no status
guard in its WHERE clause. -/
def fail_job (j : JobRow) (error : String) (next_retry_at : Option Int)
    (now : Int) : JobRow :=
  { j with
    status := if next_retry_at.isSome then .Pending else .Failed,
    retry_count := if next_retry_at.isSome then j.retry_count + 1 else j.retry_count,
    next_retry_at := next_retry_at,
    error_message := some error,
    updated_at := now,
    worker_id := none,
    started_at := if next_retry_at.isSome then none else j.started_at }

/-- `cancel_job` from `job_repository.rs` lines 168-182, as the effect on the
addressed row: the UPDATE applies iff `status NOT IN ('completed',
'cancelled')`. -/
def cancel_job (j : JobRow) (now : Int) : JobRow :=
  if j.status == .Completed || j.status == .Cancelled then j
  else { j with status := .Cancelled, updated_at := now, worker_id := none }

/-- `release_job` / `release_worker_jobs` SET clause from `job_repository.rs`
lines 229-259, applied to a row iff it is running (and, for the worker-scoped
form, owned by the given worker). -/
def release_job_row (j : JobRow) (now : Int) : JobRow :=
  if j.status == .Running then
    { j with status := .Pending, worker_id := none, started_at := none,
             updated_at := now }
  else j

/-- Circuit breaker states from `circuit_breaker.rs` (`enum CircuitState`). -/
inductive CircuitState where
  | Closed
  | Open
  | HalfOpen
deriving DecidableEq, Repr

/-- `CircuitBreakerConfig` from `circuit_breaker.rs` lines 45-60.  Durations
are exact rationals (seconds); the `f32` backoff multiplier is an exact
rational (its default 2.0 is exactly representable in `f32`). -/
structure CircuitBreakerConfig where
  failure_threshold : Nat
  success_threshold : Nat
  recovery_timeout : ℚ
  rate_limit_backoff_multiplier : ℚ
  max_recovery_timeout : ℚ
deriving Repr

/-- Default configuration from `circuit_breaker.rs` lines 62-72. -/
def CircuitBreakerConfig.standard : CircuitBreakerConfig :=
  { failure_threshold := 5
    success_threshold := 2
    recovery_timeout := 30
    rate_limit_backoff_multiplier := 2
    max_recovery_timeout := 300 }

/-- `CircuitBreakerInner` from `circuit_breaker.rs` lines 76-83.  `Instant`
values are rational timestamps on a global clock. -/
structure BreakerInner where
  state : CircuitState
  failure_count : Nat
  success_count : Nat
  last_failure_time : Option ℚ
  last_error_message : Option String
  current_recovery_timeout : ℚ
deriving DecidableEq, Repr

/-- `CircuitBreakerInner::new` from `circuit_breaker.rs` lines 86-95. -/
def BreakerInner.start (config : CircuitBreakerConfig) : BreakerInner :=
  { state := .Closed
    failure_count := 0
    success_count := 0
    last_failure_time := none
    last_error_message := none
    current_recovery_timeout := config.recovery_timeout }

/-- `CircuitBreakerError` from `circuit_breaker.rs` lines 111-116:
either an `Open` rejection carrying `retry_after`, or the wrapped
operation error `Inner`. -/
inductive CircuitBreakerError where
  | Open (name : String) (retry_after : ℚ)
  | Inner (e : AppError)
deriving DecidableEq, Repr

/-- The rate-limit test at the top of `record_failure` (`circuit_breaker.rs`
lines 280-287): `RateLimitExceeded` or `LlmError` with status code 429. -/
def is_rate_limit_error : AppError → Bool
  | .RateLimitExceeded => true
  | .LlmError _ 429 _ => true
  | _ => false

/-- `maybe_transition_to_half_open` from `circuit_breaker.rs` lines 359-371:
while `Open`, once `elapsed ≥ current_recovery_timeout` the state lazily
becomes `HalfOpen` with the probe counter reset. -/
def maybe_half_open (inner : BreakerInner) (now : ℚ) : BreakerInner :=
  match inner.state, inner.last_failure_time with
  | .Open, some t =>
      if now - t ≥ inner.current_recovery_timeout then
        { inner with state := .HalfOpen, success_count := 0 }
      else inner
  | _, _ => inner

/-- The `retry_after` computation of `call` (`circuit_breaker.rs` lines
216-226): remaining dwell when known, else the full current timeout. -/
def breaker_retry_after (inner : BreakerInner) (now : ℚ) : ℚ :=
  match inner.last_failure_time with
  | some t => if now - t < inner.current_recovery_timeout then
                inner.current_recovery_timeout - (now - t)
              else 0
  | none => inner.current_recovery_timeout

/-- `record_success` from `circuit_breaker.rs` lines 251-275. -/
def record_success (config : CircuitBreakerConfig) (inner : BreakerInner) :
    BreakerInner :=
  match inner.state with
  | .HalfOpen =>
      let sc := inner.success_count + 1
      if sc ≥ config.success_threshold then
        { inner with
          state := .Closed, failure_count := 0, success_count := 0,
          last_error_message := none,
          current_recovery_timeout := config.recovery_timeout }
      else { inner with success_count := sc }
  | .Closed => { inner with failure_count := 0 }
  | .Open => inner

/-- `record_failure` from `circuit_breaker.rs` lines 277-346.  In `Closed`
the failure counter rises and, only when the threshold is reached, the
circuit opens and a rate-limit failure extends the timeout (capped at
`max_recovery_timeout`); in `HalfOpen` every failure reopens and a rate-limit
failure extends the timeout; in `Open` only the last error message is
recorded. -/
def record_failure (config : CircuitBreakerConfig) (inner : BreakerInner)
    (error : AppError) (now : ℚ) : BreakerInner :=
  let is_rate_limit := is_rate_limit_error error
  match inner.state with
  | .Closed =>
      let fc := inner.failure_count + 1
      let base := { inner with
        failure_count := fc,
        last_failure_time := some now,
        last_error_message := some error.display }
      if fc ≥ config.failure_threshold then
        let opened := { base with state := CircuitState.Open }
        if is_rate_limit then
          let extended :=
            min (inner.current_recovery_timeout *
                  config.rate_limit_backoff_multiplier)
                config.max_recovery_timeout
          { opened with current_recovery_timeout := extended }
        else opened
      else base
  | .HalfOpen =>
      let reopened := { inner with
        state := CircuitState.Open,
        last_failure_time := some now,
        last_error_message := some error.display,
        success_count := 0 }
      if is_rate_limit then
        let extended :=
          min (inner.current_recovery_timeout *
                config.rate_limit_backoff_multiplier)
              config.max_recovery_timeout
        { reopened with current_recovery_timeout := extended }
      else reopened
  | .Open => { inner with last_error_message := some error.display }

/-- `CircuitBreaker::call` from `circuit_breaker.rs` lines 205-249, with the
protected operation's outcome passed as a value (`op_result`); the pair holds
the returned result and the breaker state after the call.  `now` is the
instant of the admission check and `now_rec` the instant at which a failure
would be recorded. -/
def breaker_call {α : Type} (config : CircuitBreakerConfig) (name : String)
    (inner : BreakerInner) (now now_rec : ℚ)
    (op_result : Except AppError α) :
    Except CircuitBreakerError α × BreakerInner :=
  let inner1 := maybe_half_open inner now
  if inner1.state == .Open then
    (.error (.Open name (breaker_retry_after inner1 now)), inner1)
  else
    let inner2 :=
      match op_result with
      | .ok _ => record_success config inner1
      | .error e =>
          if e.should_trip_circuit then record_failure config inner1 e now_rec
          else inner1
    (op_result.mapError .Inner, inner2)

/-- A stored extraction row (`struct Extraction` in `models.rs`), with UUIDs
as `Nat`, timestamps as `Int` and the JSON payload generic in `J`. -/
structure ExtractionRec (J : Type) where
  id : Nat
  url : String
  schema_name : String
  extracted_data : J
  content_hash : String
  data_hash : String
  model : String
  created_at : Int

/-- `struct NewExtraction` from `models.rs`: the DTO handed to
`ExtractionStore::save`. -/
structure NewExtractionRec (J : Type) where
  url : String
  schema_name : String
  extracted_data : J
  raw_content_hash : String
  data_hash : String
  model : String

/-- `struct ScrapeResult` returned by `ScrapeService::scrape`. -/
structure ScrapeResultRec (J : Type) where
  extracted_data : J
  content_hash : String
  data_hash : String
  changed : Bool
  extraction_id : Option Nat

/-- The injected capabilities of `ScrapeService` (`traits.rs`): fetcher,
cleaner and extractor, together with the serialization `jstr` standing for
`serde_json::Value::to_string` and `hash` standing for
`models::compute_hash` (SHA-256 hex), both abstracted as functions since no
claim depends on their internals. -/
structure PipelineDeps (J : Type) where
  fetch : String → Except AppError String
  clean : String → Except AppError String
  extract : String → J → Except AppError J
  jstr : J → String
  hash : String → String

/-- The injected `ExtractionStore` capability (`traits.rs`): `get_latest`
keyed by `(url, schema_name)` and `save` returning the generated id. -/
structure StoreModel (J : Type) where
  get_latest : String → String → Except AppError (Option (ExtractionRec J))
  save : NewExtractionRec J → Except AppError Nat

/-- Ghost instrumentation naming each pipeline component invocation, used to
state which steps of `scrape` were executed. -/
inductive Step where
  | fetch
  | clean
  | extract
  | getLatest
  | save
deriving DecidableEq, Repr

/-- `ScrapeService::scrape` from `scrape.rs` lines 60-137, with a ghost log of
the component invocations in execution order.  A `none` store models a
service built by `ScrapeService::new`; a `some` store one built by
`with_store`.  Each component error ends the run immediately with that
error. -/
def scrape {J : Type} [DecidableEq J] (d : PipelineDeps J)
    (store : Option (StoreModel J)) (model_name url schema_name : String)
    (schema : J) : Except AppError (ScrapeResultRec J) × List Step :=
  match d.fetch url with
  | .error e => (.error e, [Step.fetch])
  | .ok html =>
    match d.clean html with
    | .error e => (.error e, [Step.fetch, Step.clean])
    | .ok markdown =>
      match d.extract markdown schema with
      | .error e => (.error e, [Step.fetch, Step.clean, Step.extract])
      | .ok extracted =>
        let content_hash := d.hash markdown
        let data_hash := d.hash (d.jstr extracted)
        match store with
        | some st =>
          match st.get_latest url schema_name with
          | .error e =>
              (.error e, [Step.fetch, Step.clean, Step.extract, Step.getLatest])
          | .ok previous =>
            let changed :=
              match previous with
              | some prev => prev.data_hash != data_hash
              | none => true
            let row : NewExtractionRec J :=
              { url := url, schema_name := schema_name,
                extracted_data := extracted, raw_content_hash := content_hash,
                data_hash := data_hash, model := model_name }
            match st.save row with
            | .error e =>
                (.error e,
                 [Step.fetch, Step.clean, Step.extract, Step.getLatest, Step.save])
            | .ok id =>
                (.ok { extracted_data := extracted, content_hash := content_hash,
                       data_hash := data_hash, changed := changed,
                       extraction_id := some id },
                 [Step.fetch, Step.clean, Step.extract, Step.getLatest, Step.save])
        | none =>
            (.ok { extracted_data := extracted, content_hash := content_hash,
                   data_hash := data_hash, changed := true,
                   extraction_id := none },
             [Step.fetch, Step.clean, Step.extract])

/-- The failure branch of `WorkerService::process_job` (`worker.rs` lines
252-283): from the circuit-breaker error it derives the stored error message
and the retryability flag (`Open` is always retryable, `Inner e` uses
`e.is_retryable`), then schedules a retry at `calculate_next_retry` exactly
when `job.can_retry()` also holds.  The second component is the
`next_retry_at` argument passed to `fail_job`. -/
def worker_fail_decision (j : JobRow) (rc : RetryConfig) (now : Int)
    (cbe : CircuitBreakerError) : String × Option Int :=
  let classified : String × Bool :=
    match cbe with
    | .Open name retry_after =>
        ("Circuit breaker \x27" ++ name ++ "\x27 open, retry after "
          ++ toString retry_after.floor ++ "s", true)
    | .Inner e => (e.display, e.is_retryable)
  let can_retry := j.can_retry && classified.2
  (classified.1,
   if can_retry then some (j.calculate_next_retry rc now) else none)

/-- A concrete permanently-failed job row, used to evaluate the queue
operations on terminal rows. -/
def exampleFailedJob : JobRow :=
  { id := 1, url := "https://example.com", schema_name := "blog",
    schema := "{}", model := "gpt-4o-mini",
    base_url := "https://api.openai.com/v1", status := .Failed,
    created_at := 0, updated_at := 3, started_at := some 1,
    completed_at := none, retry_count := 0, max_retries := 3,
    next_retry_at := none, error_message := some "permanent error",
    extraction_id := none, worker_id := none }

/-- A concrete cancelled job row. -/
def exampleCancelledJob : JobRow :=
  { exampleFailedJob with
    id := 2
    status := .Cancelled
    error_message := none }

/-- A breaker that has just opened: one failure recorded at instant 0 with
the default 30-second recovery timeout. -/
def exampleOpenInner : BreakerInner :=
  { state := .Open, failure_count := 1, success_count := 0,
    last_failure_time := some 0,
    last_error_message := some "Network error: test",
    current_recovery_timeout := 30 }

/-- A half-open breaker probing after recovery. -/
def exampleHalfOpenInner : BreakerInner :=
  { state := .HalfOpen, failure_count := 1, success_count := 0,
    last_failure_time := some 0, last_error_message := some "Rate limit exceeded",
    current_recovery_timeout := 30 }

/-- Pipeline dependencies whose components all succeed; the abstract
serialization and hash are the identity, so the extracted value doubles as
its own data hash. -/
def exampleDeps : PipelineDeps String :=
  { fetch := fun _ => .ok "<p>h</p>",
    clean := fun s => .ok s,
    extract := fun _ _ => .ok "d",
    jstr := fun s => s,
    hash := fun s => s }

/-- A previously stored extraction whose data hash matches what
`exampleDeps` extracts. -/
def examplePrev : ExtractionRec String :=
  { id := 9, url := "https://example.com", schema_name := "blog",
    extracted_data := "d", content_hash := "<p>h</p>",
    data_hash := "d", model := "gpt-4o-mini", created_at := 0 }

/-- A store whose latest extraction is `examplePrev` and whose save returns
id 1. -/
def exampleStore : StoreModel String :=
  { get_latest := fun _ _ => .ok (some examplePrev),
    save := fun _ => .ok 1 }

/-- Pipeline dependencies whose fetch fails with an HTTP error. -/
def exampleFailDeps : PipelineDeps String :=
  { fetch := fun _ => .error (.HttpError "connection refused"),
    clean := fun s => .ok s,
    extract := fun _ _ => .ok "d",
    jstr := fun s => s,
    hash := fun s => s }

/-- The result of a successful scrape through `exampleDeps` against
`exampleStore`: the data hash matches `examplePrev`, so `changed` is false. -/
def exampleResult : ScrapeResultRec String :=
  { extracted_data := "d", content_hash := "<p>h</p>", data_hash := "d",
    changed := false, extraction_id := some 1 }

/-- The result of the same successful scrape run without a store. -/
def exampleNoStoreResult : ScrapeResultRec String :=
  { extracted_data := "d", content_hash := "<p>h</p>", data_hash := "d",
    changed := true, extraction_id := none }

theorem starts_with_append_left (a b l : List Char) :
    starts_with (a ++ b) l = true → starts_with a l = true := by
  induction a generalizing l with
  | nil => intro _; rfl
  | cons x xs ih =>
    intro h
    cases l with
    | nil => simp [starts_with] at h
    | cons y ys =>
      simp only [List.cons_append, starts_with, Bool.and_eq_true] at h ⊢
      exact ⟨h.1, ih ys h.2⟩

theorem has_sub_append_left (a b l : List Char) :
    has_sub (a ++ b) l = true → has_sub a l = true := by
  induction l with
  | nil =>
    intro h
    cases a with
    | nil => rfl
    | cons x xs => simp [has_sub, starts_with] at h
  | cons y ys ih =>
    intro h
    simp only [has_sub, Bool.or_eq_true] at h ⊢
    rcases h with h | h
    · exact Or.inl (starts_with_append_left a b _ h)
    · exact Or.inr (ih h)

theorem contains_connection_contains_connect (msg : String) :
    str_contains msg "connection" = true → str_contains msg "connect" = true := by
  intro h
  have e : ("connection").toList
      = ("connect").toList ++ [Char.ofNat 105, Char.ofNat 111, Char.ofNat 110] := by
    decide
  unfold str_contains at h ⊢
  rw [e] at h
  exact has_sub_append_left _ _ _ h

/-- C3 counterexample: the message "reset" makes `Http` retryable but does
not trip the circuit, so the two predicates are not equal for every message
and the trip condition is not the set timeout / connect / reset. -/
theorem http_reset_retryable_not_tripping :
    (AppError.HttpError "reset").is_retryable = true ∧
    (AppError.HttpError "reset").should_trip_circuit = false := by
  decide

/-- C3 (amended): `is_retryable(Http msg)` holds exactly when `msg` contains
one of timeout / connect / reset, while `should_trip_circuit(Http msg)` holds
exactly when `msg` contains timeout or connect (the source's third substring,
connection, already contains connect and so adds nothing). -/
theorem http_error_retry_vs_trip (msg : String) :
    (AppError.HttpError msg).is_retryable
      = (str_contains msg "timeout" || str_contains msg "connect"
          || str_contains msg "reset") ∧
    (AppError.HttpError msg).should_trip_circuit
      = (str_contains msg "timeout" || str_contains msg "connect") := by
  refine ⟨rfl, ?_⟩
  show (str_contains msg "timeout" || str_contains msg "connect"
      || str_contains msg "connection") = _
  cases hc : str_contains msg "connection" with
  | false => simp [hc]
  | true => simp [hc, contains_connection_contains_connect msg hc]

/-- C1 counterexample: a permanently failed job — a terminal status — is
modified by `cancel_job`, which only refuses rows already completed or
cancelled, so terminal stability as claimed does not hold. -/
theorem cancel_job_modifies_failed_row :
    exampleFailedJob.status = .Failed ∧
    JobStatus.is_terminal .Failed = true ∧
    (cancel_job exampleFailedJob 5).status = .Cancelled := by
  refine ⟨rfl, rfl, rfl⟩

/-- C1 (amended): `claim_job` leaves every non-pending row — in particular
every terminal row — unmodified; `cancel_job` leaves completed and cancelled
rows unmodified, is idempotent, and refuses to override `completed`, but it
does move a `failed` row to `cancelled`; `fail_job` carries no status guard
at all. -/
theorem terminal_rows_under_queue_ops (j : JobRow) (wid : String) (now : Int) :
    (j.status.is_terminal = true → claim_job_row j wid now = j) ∧
    ((j.status = .Completed ∨ j.status = .Cancelled) → cancel_job j now = j) ∧
    (j.status = .Failed → (cancel_job j now).status = .Cancelled) ∧
    (∀ now2 : Int, cancel_job (cancel_job j now) now2 = cancel_job j now) := by
  refine ⟨?_, ?_, ?_, ?_⟩
  · intro ht
    have hp : j.status ≠ .Pending := by
      intro h; rw [h] at ht; exact absurd ht (by decide)
    unfold claim_job_row claim_filter
    simp [hp]
  · intro h
    unfold cancel_job
    rcases h with h | h <;> simp [h]
  · intro h
    unfold cancel_job
    simp [h]
  · intro now2
    unfold cancel_job
    by_cases h : j.status = .Completed ∨ j.status = .Cancelled
    · rcases h with h | h <;> simp [h]
    · push_neg at h
      simp [h.1, h.2]

/-- C1 amended-claim witness at a concrete cancelled row. -/
theorem terminal_rows_under_queue_ops_witness :
    cancel_job exampleCancelledJob 7 = exampleCancelledJob ∧
    claim_job_row exampleCancelledJob "w" 7 = exampleCancelledJob := by
  have h := terminal_rows_under_queue_ops exampleCancelledJob "w" 7
  exact ⟨h.2.1 (Or.inr rfl), h.1 rfl⟩

/-- C4: with a provided `next_retry_at`, `fail_job` resets the row to
pending, increments `retry_count` by exactly one, stores the provided
instant, clears `started_at` and `worker_id` and records the error message;
without one it marks the row failed, leaves `retry_count` unchanged, clears
`worker_id` and records the error message. -/
theorem fail_job_dual_semantics (j : JobRow) (err : String) (t now : Int) :
    ((fail_job j err (some t) now).status = .Pending ∧
     (fail_job j err (some t) now).retry_count = j.retry_count + 1 ∧
     (fail_job j err (some t) now).next_retry_at = some t ∧
     (fail_job j err (some t) now).started_at = none ∧
     (fail_job j err (some t) now).worker_id = none ∧
     (fail_job j err (some t) now).error_message = some err) ∧
    ((fail_job j err none now).status = .Failed ∧
     (fail_job j err none now).retry_count = j.retry_count ∧
     (fail_job j err none now).worker_id = none ∧
     (fail_job j err none now).error_message = some err) := by
  unfold fail_job
  simp

/-- C5: after a pipeline failure the worker passes `fail_job` a scheduled
retry instant `now + delay(retry_count + 1)` exactly when
`retry_count < max_retries` and the failure is retryable, a breaker `Open`
rejection counting as retryable and an `Inner` error consulting
`is_retryable`; otherwise it passes `none`. -/
theorem worker_retry_decision (j : JobRow) (rc : RetryConfig) (now : Int)
    (name : String) (ra : ℚ) (e : AppError) :
    (worker_fail_decision j rc now (.Open name ra)).2
      = (if j.retry_count < j.max_retries
         then some (now + rc.delay_for_attempt (j.retry_count + 1)) else none) ∧
    (worker_fail_decision j rc now (.Inner e)).2
      = (if j.retry_count < j.max_retries ∧ e.is_retryable = true
         then some (now + rc.delay_for_attempt (j.retry_count + 1)) else none) := by
  unfold worker_fail_decision JobRow.can_retry JobRow.calculate_next_retry
  constructor
  · by_cases h : j.retry_count < j.max_retries <;> simp [h]
  · by_cases h : j.retry_count < j.max_retries <;>
      cases he : e.is_retryable <;> simp [h, he]

/-- C2: while the breaker is open and the recovery dwell has not elapsed,
`call` returns the distinct `Open` rejection carrying `retry_after` with the
breaker untouched, and its outcome is independent of the protected
operation, which is therefore never invoked. -/
theorem open_breaker_rejects_without_invoking {α : Type}
    (config : CircuitBreakerConfig) (name : String) (inner : BreakerInner)
    (now now_rec : ℚ) (hopen : inner.state = .Open)
    (hdwell : ∀ t, inner.last_failure_time = some t →
      now - t < inner.current_recovery_timeout)
    (op1 op2 : Except AppError α) :
    breaker_call config name inner now now_rec op1
      = (.error (.Open name (breaker_retry_after inner now)), inner) ∧
    breaker_call config name inner now now_rec op1
      = breaker_call config name inner now now_rec op2 := by
  have hmho : maybe_half_open inner now = inner := by
    unfold maybe_half_open
    cases hl : inner.last_failure_time with
    | none => rw [hopen]
    | some t =>
      rw [hopen]
      have := hdwell t hl
      simp [not_le.mpr this]
  have h1 : breaker_call config name inner now now_rec op1
      = (.error (.Open name (breaker_retry_after inner now)), inner) := by
    unfold breaker_call
    rw [hmho]
    simp [hopen]
  have h2 : breaker_call config name inner now now_rec op2
      = (.error (.Open name (breaker_retry_after inner now)), inner) := by
    unfold breaker_call
    rw [hmho]
    simp [hopen]
  exact ⟨h1, h1.trans h2.symm⟩

/-- C2 witness: a freshly opened breaker (failure at instant 0, timeout 30)
inspected at instant 10 rejects with `retry_after = 20` whatever the
operation would have returned. -/
theorem open_breaker_rejects_witness :
    breaker_call .standard "llm" exampleOpenInner 10 10 (.ok (0 : Nat))
      = (.error (.Open "llm" 20), exampleOpenInner) ∧
    breaker_call .standard "llm" exampleOpenInner 10 10 (.ok (0 : Nat))
      = breaker_call .standard "llm" exampleOpenInner 10 10
          (.error .RateLimitExceeded) := by
  have h := open_breaker_rejects_without_invoking
    (α := Nat) .standard "llm" exampleOpenInner 10 10 rfl
    (by intro t ht
        cases ht
        norm_num [exampleOpenInner])
    (.ok 0) (.error .RateLimitExceeded)
  refine ⟨?_, h.2⟩
  rw [h.1]
  norm_num [breaker_retry_after, exampleOpenInner]

/-- C9 counterexample: with an open breaker whose dwell has elapsed, `call`
with a non-tripping failure performs the lazy open-to-half-open transition,
so the breaker state after the call differs from the state before it. -/
theorem lazy_transition_on_non_tripping_error :
    (AppError.Generic "boom").should_trip_circuit = false ∧
    exampleOpenInner.state = .Open ∧
    (breaker_call .standard "llm" exampleOpenInner 30 30
        (.error (AppError.Generic "boom") : Except AppError Nat)).2.state
      = .HalfOpen := by
  refine ⟨rfl, rfl, ?_⟩
  have hm : maybe_half_open exampleOpenInner 30
      = { exampleOpenInner with state := .HalfOpen, success_count := 0 } := by
    unfold maybe_half_open exampleOpenInner
    norm_num
  unfold breaker_call
  rw [hm]
  simp [AppError.should_trip_circuit]

/-- C9 (amended): a failure that does not trip the circuit is propagated as
`Inner` and the result-recording phase leaves the breaker exactly in the
state produced by the lazy open-to-half-open transition of the admission
check; when the breaker was not open before the call, that is exactly the
state before the call, every field included. -/
theorem non_tripping_error_frame {α : Type} (config : CircuitBreakerConfig)
    (name : String) (inner : BreakerInner) (now now_rec : ℚ) (e : AppError)
    (hnt : e.should_trip_circuit = false)
    (hrun : (maybe_half_open inner now).state ≠ .Open) :
    breaker_call config name inner now now_rec (.error e : Except AppError α)
      = (.error (.Inner e), maybe_half_open inner now) ∧
    (inner.state ≠ .Open → maybe_half_open inner now = inner) := by
  constructor
  · unfold breaker_call
    simp [hrun, hnt, Except.mapError]
  · intro h
    unfold maybe_half_open
    cases hs : inner.state with
    | Open => exact absurd hs h
    | Closed => rfl
    | HalfOpen => rfl

/-- C9 amended-claim witness: a closed breaker hit by a non-tripping
`Generic` error propagates it as `Inner` and is left exactly as it was. -/
theorem non_tripping_error_frame_witness :
    breaker_call .standard "llm" (BreakerInner.start .standard) 0 0
        (.error (AppError.Generic "x") : Except AppError Nat)
      = (.error (.Inner (AppError.Generic "x")), BreakerInner.start .standard) := by
  have h := non_tripping_error_frame (α := Nat) .standard "llm"
    (BreakerInner.start .standard) 0 0 (AppError.Generic "x") rfl (by decide)
  rw [h.1, h.2 (by decide)]

/-- C7 counterexample: with the default configuration (threshold 5), the
first rate-limit failure in the closed state leaves the effective recovery
timeout at the base 30 seconds instead of multiplying it by 2, so not every
consecutive rate-limit failure in the closed state applies the multiplier. -/
theorem closed_rate_limit_below_threshold_no_backoff :
    (BreakerInner.start .standard).state = .Closed ∧
    is_rate_limit_error .RateLimitExceeded = true ∧
    (record_failure .standard (BreakerInner.start .standard)
        .RateLimitExceeded 0).current_recovery_timeout
      = CircuitBreakerConfig.standard.recovery_timeout ∧
    CircuitBreakerConfig.standard.recovery_timeout *
        CircuitBreakerConfig.standard.rate_limit_backoff_multiplier
      ≠ CircuitBreakerConfig.standard.recovery_timeout := by
  refine ⟨rfl, rfl, ?_, by norm_num [CircuitBreakerConfig.standard]⟩
  unfold record_failure BreakerInner.start CircuitBreakerConfig.standard
  norm_num

/-- C7 (amended): a rate-limit failure multiplies the effective recovery
timeout by the configured multiplier only when it opens the circuit — in the
closed state on the failure that reaches `failure_threshold`, and in the
half-open state on every failure; the product is always capped at
`max_recovery_timeout`, a closed-state failure below the threshold and any
failure arriving while already open leave the timeout unchanged, and the
timeout is reset to the base `recovery_timeout` on the full half-open to
closed transition. -/
theorem rate_limit_backoff_behaviour (config : CircuitBreakerConfig)
    (inner : BreakerInner) (e : AppError) (now : ℚ) :
    (inner.state = .Closed → inner.failure_count + 1 < config.failure_threshold →
      (record_failure config inner e now).current_recovery_timeout
        = inner.current_recovery_timeout) ∧
    (inner.state = .Closed → config.failure_threshold ≤ inner.failure_count + 1 →
      is_rate_limit_error e = true →
      (record_failure config inner e now).current_recovery_timeout
          = min (inner.current_recovery_timeout *
                  config.rate_limit_backoff_multiplier)
                config.max_recovery_timeout ∧
      (record_failure config inner e now).current_recovery_timeout
          ≤ config.max_recovery_timeout) ∧
    (inner.state = .HalfOpen → is_rate_limit_error e = true →
      (record_failure config inner e now).current_recovery_timeout
          = min (inner.current_recovery_timeout *
                  config.rate_limit_backoff_multiplier)
                config.max_recovery_timeout ∧
      (record_failure config inner e now).current_recovery_timeout
          ≤ config.max_recovery_timeout) ∧
    (inner.state = .Open →
      (record_failure config inner e now).current_recovery_timeout
        = inner.current_recovery_timeout) ∧
    (inner.state = .HalfOpen → config.success_threshold ≤ inner.success_count + 1 →
      (record_success config inner).current_recovery_timeout
        = config.recovery_timeout) := by
  refine ⟨?_, ?_, ?_, ?_, ?_⟩
  · intro hs hlt
    unfold record_failure
    rw [hs]
    simp [Nat.not_le.mpr hlt]
  · intro hs hge hrl
    unfold record_failure
    rw [hs]
    simp only [hrl, if_pos hge]
    exact ⟨rfl, min_le_right _ _⟩
  · intro hs hrl
    unfold record_failure
    rw [hs]
    simp only [hrl, if_pos rfl]
    exact ⟨rfl, min_le_right _ _⟩
  · intro hs
    unfold record_failure
    rw [hs]
  · intro hs hge
    unfold record_success
    rw [hs]
    simp [hge]

/-- C7 amended-claim witness: a half-open breaker at timeout 30 hit by a
rate-limit failure moves to timeout `min (30 * 2) 300 = 60 ≤ 300`. -/
theorem rate_limit_backoff_witness :
    (record_failure .standard exampleHalfOpenInner
        .RateLimitExceeded 5).current_recovery_timeout = 60 ∧
    (record_failure .standard exampleHalfOpenInner
        .RateLimitExceeded 5).current_recovery_timeout ≤ 300 := by
  have h := (rate_limit_backoff_behaviour .standard exampleHalfOpenInner
    .RateLimitExceeded 5).2.2.1 rfl rfl
  have hmin : min (exampleHalfOpenInner.current_recovery_timeout *
      CircuitBreakerConfig.standard.rate_limit_backoff_multiplier)
      CircuitBreakerConfig.standard.max_recovery_timeout = (60 : ℚ) := by
    norm_num [exampleHalfOpenInner, CircuitBreakerConfig.standard]
  refine ⟨?_, ?_⟩
  · rw [h.1, hmin]
  · rw [h.1, hmin]
    norm_num

/-- C6: for a successful scrape through an attached store, `changed` is false
exactly when the store's latest extraction for `(url, schema_name)` exists
and its `data_hash` equals the new candidate's `data_hash`; with no previous
extraction `changed` is true. -/
theorem change_detection_iff {J : Type} [DecidableEq J] (d : PipelineDeps J)
    (st : StoreModel J) (model_name url schema_name : String) (schema : J)
    (r : ScrapeResultRec J) (log : List Step)
    (h : scrape d (some st) model_name url schema_name schema = (.ok r, log)) :
    r.changed = false ↔
      ∃ prev, st.get_latest url schema_name = .ok (some prev) ∧
        prev.data_hash = r.data_hash := by
  cases hf : d.fetch url with
  | error e => simp only [scrape, hf] at h; injection h with h1 _; cases h1
  | ok html =>
  cases hc : d.clean html with
  | error e => simp only [scrape, hf, hc] at h; injection h with h1 _; cases h1
  | ok markdown =>
  cases hx : d.extract markdown schema with
  | error e =>
    simp only [scrape, hf, hc, hx] at h; injection h with h1 _; cases h1
  | ok extracted =>
  cases hl : st.get_latest url schema_name with
  | error e =>
    simp only [scrape, hf, hc, hx, hl] at h; injection h with h1 _; cases h1
  | ok previous =>
  cases hsv : st.save { url := url, schema_name := schema_name, extracted_data := extracted, raw_content_hash := d.hash markdown, data_hash := d.hash (d.jstr extracted), model := model_name } with
  | error e =>
    simp only [scrape, hf, hc, hx, hl, hsv] at h
    injection h with h1 _; cases h1
  | ok id =>
  simp only [scrape, hf, hc, hx, hl, hsv] at h
  injection h with h1 _
  injection h1 with h2
  subst h2
  cases previous with
  | none =>
    simp only
    constructor
    · intro hfalse; cases hfalse
    · rintro ⟨prev, hp, _⟩
      injection hp with hp1
      cases hp1
  | some prev =>
    simp only
    constructor
    · intro hfalse
      refine ⟨prev, rfl, ?_⟩
      simpa using hfalse
    · rintro ⟨prev2, hp, hhash⟩
      injection hp with hp1
      injection hp1 with hp2
      subst hp2
      simp [hhash]

/-- C6 witness: a run whose extracted data hashes identically to the stored
latest extraction reports `changed = false`. -/
theorem change_detection_witness :
    (scrape exampleDeps (some exampleStore) "m" "https://example.com"
        "blog" "x").1 = .ok exampleResult ∧
    exampleResult.changed = false := by
  have h := change_detection_iff exampleDeps exampleStore "m"
    "https://example.com" "blog" "x" exampleResult
    [Step.fetch, Step.clean, Step.extract, Step.getLatest, Step.save] rfl
  exact ⟨rfl, h.mpr ⟨examplePrev, rfl, rfl⟩⟩

theorem scrape_log_cases {J : Type} [DecidableEq J] (d : PipelineDeps J)
    (store : Option (StoreModel J)) (model_name url schema_name : String)
    (schema : J) :
    (scrape d store model_name url schema_name schema).2 = [Step.fetch] ∨
    (scrape d store model_name url schema_name schema).2
      = [Step.fetch, Step.clean] ∨
    (scrape d store model_name url schema_name schema).2
      = [Step.fetch, Step.clean, Step.extract] ∨
    (scrape d store model_name url schema_name schema).2
      = [Step.fetch, Step.clean, Step.extract, Step.getLatest] ∨
    (scrape d store model_name url schema_name schema).2
      = [Step.fetch, Step.clean, Step.extract, Step.getLatest, Step.save] := by
  cases hf : d.fetch url with
  | error e => left; simp only [scrape, hf]
  | ok html =>
  cases hc : d.clean html with
  | error e => right; left; simp only [scrape, hf, hc]
  | ok markdown =>
  cases hx : d.extract markdown schema with
  | error e => right; right; left; simp only [scrape, hf, hc, hx]
  | ok extracted =>
  cases store with
  | none => right; right; left; simp only [scrape, hf, hc, hx]
  | some st =>
  cases hl : st.get_latest url schema_name with
  | error e => right; right; right; left; simp only [scrape, hf, hc, hx, hl]
  | ok previous =>
  cases hsv : st.save { url := url, schema_name := schema_name, extracted_data := extracted, raw_content_hash := d.hash markdown, data_hash := d.hash (d.jstr extracted), model := model_name } with
  | error e =>
    right; right; right; right; simp only [scrape, hf, hc, hx, hl, hsv]
  | ok id =>
    right; right; right; right; simp only [scrape, hf, hc, hx, hl, hsv]

/-- C8: every component error is surfaced unchanged as the pipeline's result,
the ghost log shows that no later component ran (in particular nothing is
saved after a fetch, clean or extract error), and no component is ever
invoked twice in one run. -/
theorem pipeline_short_circuit {J : Type} [DecidableEq J] (d : PipelineDeps J)
    (store : Option (StoreModel J)) (model_name url schema_name : String)
    (schema : J) :
    (∀ e, d.fetch url = .error e →
      scrape d store model_name url schema_name schema
        = (.error e, [Step.fetch])) ∧
    (∀ html e, d.fetch url = .ok html → d.clean html = .error e →
      scrape d store model_name url schema_name schema
        = (.error e, [Step.fetch, Step.clean])) ∧
    (∀ html markdown e, d.fetch url = .ok html → d.clean html = .ok markdown →
      d.extract markdown schema = .error e →
      scrape d store model_name url schema_name schema
        = (.error e, [Step.fetch, Step.clean, Step.extract])) ∧
    (∀ st html markdown extracted e, store = some st →
      d.fetch url = .ok html → d.clean html = .ok markdown →
      d.extract markdown schema = .ok extracted →
      st.get_latest url schema_name = .error e →
      scrape d store model_name url schema_name schema
        = (.error e, [Step.fetch, Step.clean, Step.extract, Step.getLatest])) ∧
    (∀ st html markdown extracted previous e, store = some st →
      d.fetch url = .ok html → d.clean html = .ok markdown →
      d.extract markdown schema = .ok extracted →
      st.get_latest url schema_name = .ok previous →
      st.save { url := url, schema_name := schema_name, extracted_data := extracted, raw_content_hash := d.hash markdown, data_hash := d.hash (d.jstr extracted), model := model_name } = .error e →
      scrape d store model_name url schema_name schema
        = (.error e,
           [Step.fetch, Step.clean, Step.extract, Step.getLatest, Step.save])) ∧
    (∀ s : Step,
      (scrape d store model_name url schema_name schema).2.count s ≤ 1) := by
  refine ⟨?_, ?_, ?_, ?_, ?_, ?_⟩
  · intro e hf
    simp only [scrape, hf]
  · intro html e hf hc
    simp only [scrape, hf, hc]
  · intro html markdown e hf hc hx
    simp only [scrape, hf, hc, hx]
  · intro st html markdown extracted e hst hf hc hx hl
    subst hst
    simp only [scrape, hf, hc, hx, hl]
  · intro st html markdown extracted previous e hst hf hc hx hl hsv
    subst hst
    simp only [scrape, hf, hc, hx, hl, hsv]
  · intro s
    rcases scrape_log_cases d store model_name url schema_name schema with
      h | h | h | h | h <;> rw [h] <;> cases s <;> decide

/-- C8 witness: a fetch error propagates unchanged and only the fetch step
ran. -/
theorem pipeline_short_circuit_witness :
    scrape exampleFailDeps (none : Option (StoreModel String)) "m" "u" "s" "x"
      = (.error (.HttpError "connection refused"), [Step.fetch]) := by
  exact (pipeline_short_circuit exampleFailDeps none "m" "u" "s" "x").1 _ rfl

/-- C10: a `ScrapeService` built without a store (store = none) reports every
successful scrape as `changed = true` with no extraction id, whatever the
fetched, cleaned or extracted content. -/
theorem no_store_scrape_defaults {J : Type} [DecidableEq J]
    (d : PipelineDeps J) (model_name url schema_name : String) (schema : J)
    (r : ScrapeResultRec J) (log : List Step)
    (h : scrape d none model_name url schema_name schema = (.ok r, log)) :
    r.changed = true ∧ r.extraction_id = none := by
  cases hf : d.fetch url with
  | error e => simp only [scrape, hf] at h; injection h with h1 _; cases h1
  | ok html =>
  cases hc : d.clean html with
  | error e => simp only [scrape, hf, hc] at h; injection h with h1 _; cases h1
  | ok markdown =>
  cases hx : d.extract markdown schema with
  | error e =>
    simp only [scrape, hf, hc, hx] at h; injection h with h1 _; cases h1
  | ok extracted =>
    simp only [scrape, hf, hc, hx] at h
    injection h with h1 _
    injection h1 with h2
    subst h2
    exact ⟨rfl, rfl⟩

/-- C10 witness: the concrete all-successful run without a store. -/
theorem no_store_scrape_witness :
    exampleNoStoreResult.changed = true ∧
    exampleNoStoreResult.extraction_id = none := by
  exact no_store_scrape_defaults exampleDeps "m" "u" "s" "x"
    exampleNoStoreResult [Step.fetch, Step.clean, Step.extract] rfl

end Ares
